import Mathlib

/-!
Shallow embedding of the rust-acd client core (src/lib.rs, src/error.rs):
the retry orchestrator `get_server_response_with_retry`, the sqlite-backed
node cache, and the node operations `find_child`, `find_path`, `mkdir` and
`upload`.  External collaborators (the hyper transport, the JSON codec of
rustc_serialize, the rand RNG and the md5 digest) are modelled as function
parameters; the quantities that matter (status codes, retry counters,
backoff milliseconds) are Nat, well below any machine-integer overflow.
-/

namespace Acd

/-- Bytes of an HTTP response body (a Rust byte vector). -/
abbrev Body := List Nat

/-- Transport-level failures of one physical send: a hyper error from the
send call or an io error from reading the response body. -/
inductive CommError
  | hyper (s : String)
  | ioErr (s : String)
deriving DecidableEq, Repr

/-- The error enum of src/error.rs.  Payloads carried from external crates
are modelled as strings; the response-body payload is kept as bytes. -/
inductive Error
  | Hyper (s : String)
  | Io (s : String)
  | Sqlite (s : String)
  | JsonEncoder (s : String)
  | JsonDecoder (s : String)
  | UrlParse (s : String)
  | ExpiredToken
  | BadAuthUrl
  | BadPath
  | ResponseNotUtf8 (b : Body)
  | ResponseBadJson (s : String)
  | UnknownServerError (s : String)
  | ServerError (s : String)
  | NodeExists
deriving DecidableEq, Repr

/-- Lift a transport failure into the error enum (the From impls used by
the try! macro inside get_server_response). -/
def CommError.toError : CommError → Error
  | .hyper s => .Hyper s
  | .ioErr s => .Io s

/-- Outcome of one physical send of a request against the server. -/
inductive Transport
  | err (e : CommError)
  | resp (status : Nat) (body : Body)
deriving DecidableEq, Repr

/-- Model of hyper StatusCode::is_success: the 2xx class. -/
def statusIsSuccess (c : Nat) : Bool := decide (200 ≤ c ∧ c ≤ 299)

/-- Model of status_code.class() == StatusClass::ServerError: the 5xx class. -/
def statusClassIsServerError (c : Nat) : Bool := decide (500 ≤ c ∧ c ≤ 599)

/-- Rust String::contains, on the underlying character lists. -/
def strContains (s pat : String) : Bool := decide (pat.data <:+: s.data)

/-- Boolean equality of Except values, for deciding equations about
results. -/
def exceptEqb {ε α : Type} [DecidableEq ε] [DecidableEq α] :
    Except ε α → Except ε α → Bool
  | .ok a, .ok b => decide (a = b)
  | .error e, .error f => decide (e = f)
  | _, _ => false

instance {ε α : Type} [DecidableEq ε] [DecidableEq α] : DecidableEq (Except ε α) :=
  fun x y => decidable_of_iff (exceptEqb x y = true) (by
    cases x <;> cases y <;> simp [exceptEqb])

/-- Body inspection of get_server_response (src/lib.rs:272..288): decode
the JSON MessageResponse (the utf8 check and JSON decode are modelled by
the parameter decodeMessage, none on any decode failure) and look for the
phrase the backend uses to report an expired token. -/
def bodyReportsExpiredToken (decodeMessage : Body → Option String) (body : Body) : Bool :=
  match decodeMessage body with
  | some m => strContains m "Token has expired"
  | none => false

/-- Model of get_server_response (src/lib.rs:256..291) as a pure
classifier of one transport outcome: transport errors propagate, a 2xx
response is returned as-is, a non-2xx response whose body carries the
expired-token phrase becomes Error.ExpiredToken, and any other non-2xx
response is returned as-is (status, body). -/
def get_server_response (decodeMessage : Body → Option String) (t : Transport) :
    Except Error (Nat × Body) :=
  match t with
  | .err e => .error e.toError
  | .resp status body =>
    if statusIsSuccess status then .ok (status, body)
    else if bodyReportsExpiredToken decodeMessage body then .error .ExpiredToken
    else .ok (status, body)

/-- Model of the constant MAXIMUM_RETRY (src/lib.rs:39). -/
def MAXIMUM_RETRY : Nat := 5

/-- Ceiling of the randomized backoff taken before a re-issue when
retry_count failures have been seen: 1000 * (1 shifted left by
min(retry_count - 1, 8)), from src/lib.rs:215. -/
def backoffCap (retryCount : Nat) : Nat := 1000 * 2 ^ (min (retryCount - 1) 8)

/-- Message of the protocol-violation error returned when the server
reports an expired token on a call that carried no token (src/lib.rs:228). -/
def expiredNoTokenMsg : String :=
  "Server reported Expired Token on a call that didn't have a token."

/-- Message of the ServerError returned when the 5xx retry ceiling is
exhausted (src/lib.rs:245). -/
def statusBodyMsg (status : Nat) (body : Body) : String :=
  "Status was " ++ toString status ++ ", Body was " ++ toString body

/-- Message of the UnknownServerError used by the callers of the
orchestrator for unexpected statuses. -/
def unknownServerMsg (status : Nat) (body : Body) : String :=
  "Unknown Server Response, probably an error. Status was " ++ toString status
    ++ ", Body was " ++ toString body

/-- Observable outcome of one run of the retry loop: the returned value,
the number of physical sends consumed from the transport oracle, the
backoff sleeps that were performed, each recorded as (retry count at the
sleep, send index it preceded, slept milliseconds), and the number of
refresh_authorization invocations. -/
structure OrchResult where
  result : Except Error (Nat × Body)
  sendIdx : Nat
  sleeps : List (Nat × Nat × Nat)
  refreshes : Nat
deriving DecidableEq, Repr

/-- Backoff step at the top of the loop (src/lib.rs:213..217): sleep only
when retry_count > 0, for gen_range(0, backoffCap retry_count)
milliseconds; the uniform draw in [0, cap) is modelled as the RNG value
for this send index reduced modulo the cap. -/
def recordSleep (rng : Nat → Nat) (retryCount sendIdx : Nat)
    (sleeps : List (Nat × Nat × Nat)) : List (Nat × Nat × Nat) :=
  if 0 < retryCount then
    sleeps ++ [(retryCount, sendIdx, rng sendIdx % backoffCap retryCount)]
  else sleeps

/-- The loop of get_server_response_with_retry (src/lib.rs:202..253).
The nested refresh_authorization call is abstracted as refresh (taking
and returning the running send index); fuel bounds the number of loop
iterations, none meaning the Rust loop did not finish within fuel
iterations.  Branches, in source order: on Err(ExpiredToken) with
authorize, run refresh and on its success reset retry_count to 0 and
continue; with no authorization, return the protocol-violation
ServerError; on any other Err, increment retry_count, return the error
once MAXIMUM_RETRY is reached, else continue; on Ok with a 5xx status,
increment retry_count, return a ServerError once MAXIMUM_RETRY is
reached, else continue; on any other Ok, return (status, body). -/
def retryLoop (net : Nat → Transport) (rng : Nat → Nat)
    (decodeMessage : Body → Option String)
    (refresh : Nat → Option (Except Error Unit × Nat)) (authorize : Bool) :
    Nat → Nat → Nat → List (Nat × Nat × Nat) → Nat → Option OrchResult
  | 0, _, _, _, _ => none
  | fuel + 1, retryCount, sendIdx, sleeps, refreshes =>
    let sleeps2 := recordSleep rng retryCount sendIdx sleeps
    match get_server_response decodeMessage (net sendIdx) with
    | .error e =>
      if e = Error.ExpiredToken then
        if authorize then
          match refresh (sendIdx + 1) with
          | none => none
          | some (Except.ok _, sendIdx2) =>
            retryLoop net rng decodeMessage refresh authorize fuel 0 sendIdx2 sleeps2
              (refreshes + 1)
          | some (Except.error e2, sendIdx2) =>
            some ⟨.error e2, sendIdx2, sleeps2, refreshes + 1⟩
        else
          some ⟨.error (.ServerError expiredNoTokenMsg), sendIdx + 1, sleeps2, refreshes⟩
      else
        if MAXIMUM_RETRY ≤ retryCount + 1 then
          some ⟨.error e, sendIdx + 1, sleeps2, refreshes⟩
        else
          retryLoop net rng decodeMessage refresh authorize fuel (retryCount + 1)
            (sendIdx + 1) sleeps2 refreshes
    | .ok (status, body) =>
      if statusClassIsServerError status then
        if MAXIMUM_RETRY ≤ retryCount + 1 then
          some ⟨.error (.ServerError (statusBodyMsg status body)), sendIdx + 1, sleeps2,
            refreshes⟩
        else
          retryLoop net rng decodeMessage refresh authorize fuel (retryCount + 1)
            (sendIdx + 1) sleeps2 refreshes
      else some ⟨.ok (status, body), sendIdx + 1, sleeps2, refreshes⟩

/-- Model of refresh_authorization (src/lib.rs:381..411): POST the
refresh-token exchange through the orchestrator with authorize = false,
then on status 200 decode the O2TokenResponse and store the new tokens
(the decode outcome of decode_server_json is modelled by decodeO2), on
any other status fail with UnknownServerError, and propagate orchestrator
errors.  Returns the outcome together with the next send index; the
sleeps and refresh count of the inner loop are not observable here (the
inner loop never refreshes since it runs with authorize = false). -/
def refresh_authorization (net : Nat → Transport) (rng : Nat → Nat)
    (decodeMessage : Body → Option String) (decodeO2 : Body → Except Error Unit)
    (fuel : Nat) (sendIdx : Nat) : Option (Except Error Unit × Nat) :=
  match retryLoop net rng decodeMessage (fun _ => none) false fuel 0 sendIdx [] 0 with
  | none => none
  | some r =>
    match r.result with
    | .error e => some (.error e, r.sendIdx)
    | .ok (status, body) =>
      if status = 200 then some (decodeO2 body, r.sendIdx)
      else some (.error (.UnknownServerError (unknownServerMsg status body)), r.sendIdx)

/-- Model of get_server_response_with_retry (src/lib.rs:202..253), the
orchestrator for one logical operation: the retry loop started with
retry_count 0, at send index 0, with the real refresh_authorization as
its refresh action.  The transport oracle net gives the outcome of the
i-th physical send of the operation (the sends of a nested
refresh-token exchange consume from the same stream). -/
def get_server_response_with_retry (net : Nat → Transport) (rng : Nat → Nat)
    (decodeMessage : Body → Option String) (decodeO2 : Body → Except Error Unit)
    (authorize : Bool) (fuel : Nat) : Option OrchResult :=
  retryLoop net rng decodeMessage
    (refresh_authorization net rng decodeMessage decodeO2 fuel) authorize fuel 0 0 [] 0

/-- One row of the sqlite path_cache table: (parent, name, id). -/
abbrev CacheRow := String × String × String

/-- The path_cache table, in rowid (insertion) order. -/
abbrev Cache := List CacheRow

/-- Model of insert_into_node_cache (src/lib.rs:182..185): a plain INSERT,
append-only, never overwriting prior rows. -/
def insert_into_node_cache (c : Cache) (parent name id : String) : Cache :=
  c ++ [(parent, name, id)]

/-- Model of fetch_from_node_cache (src/lib.rs:187..197): query_row takes
the first row of SELECT id FROM path_cache WHERE parent=? AND name=?;
with the (parent, name) index, sqlite yields rows with equal keys in
rowid (insertion) order, so the earliest matching row wins;
QueryReturnedNoRows becomes None. -/
def fetch_from_node_cache (c : Cache) (parent name : String) : Option String :=
  (c.find? fun row => row.1 == parent && row.2.1 == name).map fun row => row.2.2

/-- A sequence of cache inserts, used to state robustness of lookups
under later inserts. -/
def insertAll (c : Cache) (rows : List CacheRow) : Cache :=
  rows.foldl (fun acc row => insert_into_node_cache acc row.1 row.2.1 row.2.2) c

/-- Observable outcome of find_child: the returned value, the cache
afterwards, how many remote child-lookup calls (orchestrator invocations)
were made, how many refresh cycles ran inside them, and how many cache
fetches were made. -/
structure FindChildResult where
  result : Except Error (Option String)
  cache : Cache
  lookups : Nat
  refreshes : Nat
  cacheFetches : Nat
deriving DecidableEq, Repr

/-- Model of find_child (src/lib.rs:429..452): consult the cache first and
return a hit without any network; on a miss issue one remote children
listing filtered by name through the orchestrator; on status 200 decode
the NodesResponse (its data ids are modelled by decodeNodes): an empty
data list returns Ok(None) with no insert, otherwise the first id is
inserted into the cache and returned; any other status is an
UnknownServerError. -/
def find_child (net : Nat → Transport) (rng : Nat → Nat)
    (decodeMessage : Body → Option String) (decodeO2 : Body → Except Error Unit)
    (decodeNodes : Body → Except Error (List String)) (fuel : Nat)
    (cache : Cache) (parent name : String) : Option FindChildResult :=
  match fetch_from_node_cache cache parent name with
  | some id => some ⟨.ok (some id), cache, 0, 0, 1⟩
  | none =>
    match get_server_response_with_retry net rng decodeMessage decodeO2 true fuel with
    | none => none
    | some r =>
      match r.result with
      | .error e => some ⟨.error e, cache, 1, r.refreshes, 1⟩
      | .ok (status, body) =>
        if status = 200 then
          match decodeNodes body with
          | .error e => some ⟨.error e, cache, 1, r.refreshes, 1⟩
          | .ok [] => some ⟨.ok none, cache, 1, r.refreshes, 1⟩
          | .ok (id :: _) =>
            some ⟨.ok (some id), insert_into_node_cache cache parent name id, 1,
              r.refreshes, 1⟩
        else some ⟨.error (.UnknownServerError (unknownServerMsg status body)), cache, 1,
          r.refreshes, 1⟩

/-- One component of a std::path::Path, as produced by components().
A normal component carries the outcome of OsStr::to_str: none models a
name that is not representable as UTF-8. -/
inductive PathComp
  | rootDir
  | curDir
  | parentDir
  | prefixComp
  | normal (name : Option String)
deriving DecidableEq, Repr

/-- Observable outcome of find_path, with the same counters as
FindChildResult accumulated over all components. -/
structure FindPathResult where
  result : Except Error (Option String)
  cache : Cache
  lookups : Nat
  refreshes : Nat
  cacheFetches : Nat
deriving DecidableEq, Repr

/-- The component walk of find_path (src/lib.rs:456..475): a root marker
resets the current node to the configured root, a current-directory
marker does nothing, a normal name goes through find_child (a missing
child ends the whole resolution with Ok(None)), a non-UTF8 name and any
other component kind fail with BadPath.  Each remote lookup k draws its
transport stream from net2 k. -/
def find_path_loop (net2 : Nat → Nat → Transport) (rng : Nat → Nat)
    (decodeMessage : Body → Option String) (decodeO2 : Body → Except Error Unit)
    (decodeNodes : Body → Except Error (List String)) (fuel : Nat) (rootId : String) :
    List PathComp → String → Cache → Nat → Nat → Nat → Option FindPathResult
  | [], currentDir, cache, lk, rf, cf => some ⟨.ok (some currentDir), cache, lk, rf, cf⟩
  | comp :: rest, currentDir, cache, lk, rf, cf =>
    match comp with
    | .rootDir =>
      find_path_loop net2 rng decodeMessage decodeO2 decodeNodes fuel rootId rest rootId
        cache lk rf cf
    | .curDir =>
      find_path_loop net2 rng decodeMessage decodeO2 decodeNodes fuel rootId rest
        currentDir cache lk rf cf
    | .normal (some name) =>
      match find_child (net2 lk) rng decodeMessage decodeO2 decodeNodes fuel cache
          currentDir name with
      | none => none
      | some fc =>
        match fc.result with
        | .error e =>
          some ⟨.error e, fc.cache, lk + fc.lookups, rf + fc.refreshes, cf + fc.cacheFetches⟩
        | .ok none =>
          some ⟨.ok none, fc.cache, lk + fc.lookups, rf + fc.refreshes, cf + fc.cacheFetches⟩
        | .ok (some child) =>
          find_path_loop net2 rng decodeMessage decodeO2 decodeNodes fuel rootId rest child
            fc.cache (lk + fc.lookups) (rf + fc.refreshes) (cf + fc.cacheFetches)
    | .normal none => some ⟨.error .BadPath, cache, lk, rf, cf⟩
    | _ => some ⟨.error .BadPath, cache, lk, rf, cf⟩

/-- Model of find_path (src/lib.rs:456..475): start from the given parent
node, defaulting to the configured root, and walk the components. -/
def find_path (net2 : Nat → Nat → Transport) (rng : Nat → Nat)
    (decodeMessage : Body → Option String) (decodeO2 : Body → Except Error Unit)
    (decodeNodes : Body → Except Error (List String)) (fuel : Nat)
    (cache : Cache) (rootId : String) (parent : Option String) (path : List PathComp) :
    Option FindPathResult :=
  find_path_loop net2 rng decodeMessage decodeO2 decodeNodes fuel rootId path
    (parent.getD rootId) cache 0 0 0

/-- Hypothesis predicate for cache-only resolution: every normal component
of the path resolves through the cache alone when walking from the given
node (markers are allowed, they consult nothing). -/
def walkCached (c : Cache) (rootId : String) : String → List PathComp → Bool
  | _, [] => true
  | currentDir, comp :: rest =>
    match comp with
    | .rootDir => walkCached c rootId rootId rest
    | .curDir => walkCached c rootId currentDir rest
    | .normal (some name) =>
      match fetch_from_node_cache c currentDir name with
      | some child => walkCached c rootId child rest
      | none => false
    | _ => false

/-- Observable outcome of mkdir: the returned value and the cache
afterwards. -/
structure MkdirResult where
  result : Except Error String
  cache : Cache
deriving DecidableEq, Repr

/-- Model of mkdir (src/lib.rs:545..600): default the parent to the root,
return a cache hit immediately, otherwise POST the create-folder request
through the orchestrator; on status 201 (Created) decode the node id
(decodeNodeId), insert it into the cache and return it; on status 409
(Conflict) decode the existing node id out of the conflict body
(decodeConflictNodeId), insert it into the cache and return it as a
success; any other status is an UnknownServerError. -/
def mkdir (net : Nat → Transport) (rng : Nat → Nat)
    (decodeMessage : Body → Option String) (decodeO2 : Body → Except Error Unit)
    (decodeNodeId decodeConflictNodeId : Body → Except Error String) (fuel : Nat)
    (cache : Cache) (rootId : String) (parent : Option String) (name : String) :
    Option MkdirResult :=
  let parentId := parent.getD rootId
  match fetch_from_node_cache cache parentId name with
  | some id => some ⟨.ok id, cache⟩
  | none =>
    match get_server_response_with_retry net rng decodeMessage decodeO2 true fuel with
    | none => none
    | some r =>
      match r.result with
      | .error e => some ⟨.error e, cache⟩
      | .ok (status, body) =>
        if status = 201 then
          match decodeNodeId body with
          | .error e => some ⟨.error e, cache⟩
          | .ok id => some ⟨.ok id, insert_into_node_cache cache parentId name id⟩
        else if status = 409 then
          match decodeConflictNodeId body with
          | .error e => some ⟨.error e, cache⟩
          | .ok id => some ⟨.ok id, insert_into_node_cache cache parentId name id⟩
        else some ⟨.error (.UnknownServerError (unknownServerMsg status body)), cache⟩

/-- Observable outcome of upload: either the md5-mismatch process abort of
the reference code, or the returned value together with the cache
afterwards. -/
inductive UploadResult
  | panicked
  | done (result : Except Error String) (cache : Cache)
deriving DecidableEq, Repr

/-- Model of upload (src/lib.rs:480..540): compute the md5 of the data
(md5Hex models the digest, lowercased as in the source), default the
parent to the root, POST the multipart upload through the orchestrator;
on status 201 (Created) decode id and md5 from the body (decodeUpload),
abort on an md5 mismatch, else insert (parent, name, id) into the cache
and return the id; on status 409 (Conflict) return Err(NodeExists)
without touching the cache; any other status is an UnknownServerError. -/
def upload (net : Nat → Transport) (rng : Nat → Nat)
    (decodeMessage : Body → Option String) (decodeO2 : Body → Except Error Unit)
    (md5Hex : Body → String) (decodeUpload : Body → Except Error (String × String))
    (fuel : Nat) (cache : Cache) (rootId : String) (parent : Option String)
    (name : String) (data : Body) : Option UploadResult :=
  let calculatedMd5 := (md5Hex data).toLower
  let parentId := parent.getD rootId
  match get_server_response_with_retry net rng decodeMessage decodeO2 true fuel with
  | none => none
  | some r =>
    match r.result with
    | .error e => some (.done (.error e) cache)
    | .ok (status, body) =>
      if status = 201 then
        match decodeUpload body with
        | .error e => some (.done (.error e) cache)
        | .ok (id, md5resp) =>
          if md5resp.toLower ≠ calculatedMd5 then some .panicked
          else some (.done (.ok id) (insert_into_node_cache cache parentId name id))
      else if status = 409 then some (.done (.error .NodeExists) cache)
      else some (.done (.error (.UnknownServerError (unknownServerMsg status body))) cache)

/-- Test fixture: an RNG stream with distinguishable values. -/
def rngW : Nat → Nat := fun i => 123456 + i

/-- Test fixture: a server whose every response is a 400 carrying the
expired-token payload. -/
def netExpiredW : Nat → Transport := fun _ => .resp 400 [1]

/-- Test fixture: message decoding that always finds the expired-token
phrase. -/
def dmExpiredW : Body → Option String := fun _ => some "Token has expired"

/-- Test fixture: message decoding that never decodes a message. -/
def dmNoneW : Body → Option String := fun _ => none

/-- Test fixture: token decoding that always succeeds. -/
def o2okW : Body → Except Error Unit := fun _ => .ok ()

/-- Test fixture: a transport that fails every send. -/
def netCommW : Nat → Transport := fun _ => .err (.hyper "boom")

/-- Test fixture: one transport failure, then a 200. -/
def netOnceW : Nat → Transport := fun i => if i = 0 then .err (.hyper "boom") else .resp 200 []

/-- Test fixture: a server that always answers 409 Conflict. -/
def net409W : Nat → Transport := fun _ => .resp 409 [7]

/-- Test fixture: a server that always answers 200 Ok. -/
def net200W : Nat → Transport := fun _ => .resp 200 [3]

/-- Test fixture: conflict-body decoding yielding a fixed node id. -/
def decodeConflictW : Body → Except Error String := fun _ => .ok "existing-id"

/-- Test fixture: created-body decoding yielding a fixed node id. -/
def decodeNodeW : Body → Except Error String := fun _ => .ok "created-id"

/-- Test fixture: children-listing decoding yielding one match. -/
def decodeNodesOneW : Body → Except Error (List String) := fun _ => .ok ["child-id"]

/-- Test fixture: a per-lookup transport stream (never consulted in the
cached-path witnesses). -/
def net2W : Nat → Nat → Transport := fun _ _ => .resp 500 []

/-- Test fixture: a cache holding the edges root -> a -> b. -/
def cacheABW : Cache := [("root", "a", "aid"), ("aid", "b", "bid")]

/-- A sleep record is well-formed for the RNG stream rng when its retry
count is at least 1, it precedes a send of index at least 1 (never the
first send), and its duration is the RNG draw for that send reduced
modulo the backoff ceiling for that retry count. -/
def sleepOk (rng : Nat → Nat) (s : Nat × Nat × Nat) : Prop :=
  1 ≤ s.1 ∧ 1 ≤ s.2.1 ∧ s.2.2 = rng s.2.1 % backoffCap s.1

/- ------------------------------------------------------------------ -/
/- Helper lemmas                                                      -/
/- ------------------------------------------------------------------ -/

theorem toError_ne_expired (e : CommError) : CommError.toError e ≠ Error.ExpiredToken := by
  cases e <;> simp [CommError.toError]

theorem backoffCap_pos (k : Nat) : 0 < backoffCap k := by
  unfold backoffCap
  positivity

/-- C1: for every logical operation executed with authorization required,
if the server reports the token-expired condition on every response, the
retry orchestrator attempts the refresh-token exchange at most once
(exactly once: the refresh POST itself receives a token-expired response
on a call carrying no token, which fails as a protocol violation and
propagates) and then returns a terminal error rather than looping
indefinitely. -/
theorem c1_single_reauth_then_terminal
    (net : Nat → Transport) (rng : Nat → Nat) (dm : Body → Option String)
    (o2 : Body → Except Error Unit) (fuel : Nat) (hfuel : 1 ≤ fuel)
    (hnet : ∀ i, get_server_response dm (net i) = .error .ExpiredToken) :
    get_server_response_with_retry net rng dm o2 true fuel =
      some ⟨.error (.ServerError expiredNoTokenMsg), 2, [], 1⟩ := by
  obtain ⟨f, rfl⟩ : ∃ f, fuel = f + 1 := ⟨fuel - 1, by omega⟩
  simp only [get_server_response_with_retry, refresh_authorization, retryLoop, recordSleep,
    hnet, reduceIte, Nat.lt_irrefl, Nat.zero_add]
  simp

/-- Witness for C1 at a concrete always-expired server. -/
theorem c1_single_reauth_then_terminal_witness :
    1 ≤ 1 ∧ get_server_response_with_retry netExpiredW rngW dmExpiredW o2okW true 1 =
      some ⟨.error (.ServerError expiredNoTokenMsg), 2, [], 1⟩ :=
  ⟨Nat.le_refl 1, c1_single_reauth_then_terminal netExpiredW rngW dmExpiredW o2okW 1
    (Nat.le_refl 1) (fun _ => rfl)⟩

/-- C2: for every request whose transport always fails, the orchestrator
makes exactly MAXIMUM_RETRY = 5 attempts (physical sends) and then
returns the last observed transport error as a terminal result, with no
refresh cycle; in particular the total number of attempts is bounded. -/
theorem c2_retry_ceiling_five_attempts
    (net : Nat → Transport) (rng : Nat → Nat) (dm : Body → Option String)
    (o2 : Body → Except Error Unit) (authorize : Bool) (fuel : Nat)
    (hfuel : MAXIMUM_RETRY ≤ fuel)
    (hnet : ∀ i, ∃ e : CommError, net i = .err e) :
    ∃ r : OrchResult, get_server_response_with_retry net rng dm o2 authorize fuel = some r ∧
      r.sendIdx = MAXIMUM_RETRY ∧ r.refreshes = 0 ∧
      ∃ e : CommError, net (MAXIMUM_RETRY - 1) = .err e ∧ r.result = .error e.toError := by
  obtain ⟨f, rfl⟩ : ∃ f, fuel = f + 5 := ⟨fuel - 5, by
    have : MAXIMUM_RETRY = 5 := rfl
    omega⟩
  obtain ⟨e0, h0⟩ := hnet 0
  obtain ⟨e1, h1⟩ := hnet 1
  obtain ⟨e2, h2⟩ := hnet 2
  obtain ⟨e3, h3⟩ := hnet 3
  obtain ⟨e4, h4⟩ := hnet 4
  have key : get_server_response_with_retry net rng dm o2 authorize (f + 5) =
      some ⟨.error e4.toError, 5,
        [(1, 1, rng 1 % backoffCap 1), (2, 2, rng 2 % backoffCap 2),
          (3, 3, rng 3 % backoffCap 3), (4, 4, rng 4 % backoffCap 4)], 0⟩ := by
    simp only [get_server_response_with_retry, retryLoop, recordSleep, get_server_response,
      h0, h1, h2, h3, h4, MAXIMUM_RETRY, toError_ne_expired, ne_eq, if_false, reduceIte,
      List.nil_append, List.cons_append, List.append_assoc]
    norm_num [toError_ne_expired]
  exact ⟨_, key, rfl, rfl, e4, h4, rfl⟩

/-- Witness for C2 at a concrete always-failing transport. -/
theorem c2_retry_ceiling_five_attempts_witness :
    MAXIMUM_RETRY ≤ 5 ∧
      ∃ r : OrchResult, get_server_response_with_retry netCommW rngW dmNoneW o2okW true 5 =
        some r ∧ r.sendIdx = MAXIMUM_RETRY ∧ r.refreshes = 0 ∧
        ∃ e : CommError, netCommW (MAXIMUM_RETRY - 1) = .err e ∧ r.result = .error e.toError :=
  ⟨Nat.le_refl 5, c2_retry_ceiling_five_attempts netCommW rngW dmNoneW o2okW true 5
    (Nat.le_refl 5) (fun _ => ⟨.hyper "boom", rfl⟩)⟩

/-- C7: for every request executed without authorization required, if the
server response is classified as token-expired, the orchestrator returns
the terminal protocol-violation ServerError immediately: one physical
send, no refresh attempt, no retry, no backoff sleep. -/
theorem c7_expired_without_token_protocol_violation
    (net : Nat → Transport) (rng : Nat → Nat) (dm : Body → Option String)
    (o2 : Body → Except Error Unit) (fuel : Nat) (hfuel : 1 ≤ fuel)
    (hnet : get_server_response dm (net 0) = .error .ExpiredToken) :
    get_server_response_with_retry net rng dm o2 false fuel =
      some ⟨.error (.ServerError expiredNoTokenMsg), 1, [], 0⟩ := by
  obtain ⟨f, rfl⟩ : ∃ f, fuel = f + 1 := ⟨fuel - 1, by omega⟩
  simp only [get_server_response_with_retry, retryLoop, recordSleep, hnet, reduceIte,
    Nat.lt_irrefl, Nat.zero_add]
  simp

/-- Witness for C7 at a concrete expired-token response. -/
theorem c7_expired_without_token_protocol_violation_witness :
    1 ≤ 1 ∧ get_server_response_with_retry netExpiredW rngW dmExpiredW o2okW false 1 =
      some ⟨.error (.ServerError expiredNoTokenMsg), 1, [], 0⟩ :=
  ⟨Nat.le_refl 1, c7_expired_without_token_protocol_violation netExpiredW rngW dmExpiredW
    o2okW 1 (Nat.le_refl 1) (by decide)⟩

/-- Invariant of the retry loop: provided the entry retry count never
exceeds the entry send index (true of every reachable state, since the
count only grows alongside the index and refresh resets it to zero),
every sleep the loop ever records is well-formed for the RNG stream. -/
theorem retryLoop_sleeps_ok (net : Nat → Transport) (rng : Nat → Nat)
    (dm : Body → Option String) (refresh : Nat → Option (Except Error Unit × Nat))
    (authorize : Bool) :
    ∀ (fuel retryCount sendIdx : Nat) (sleeps : List (Nat × Nat × Nat)) (refreshes : Nat)
      (r : OrchResult), retryCount ≤ sendIdx → (∀ s ∈ sleeps, sleepOk rng s) →
      retryLoop net rng dm refresh authorize fuel retryCount sendIdx sleeps refreshes =
        some r →
      ∀ s ∈ r.sleeps, sleepOk rng s := by
  intro fuel
  induction fuel with
  | zero =>
    intro rc si sl rf r _ _ h
    simp [retryLoop] at h
  | succ f ih =>
    intro rc si sl rf r hrcsi hsl h
    have hsl2 : ∀ s ∈ recordSleep rng rc si sl, sleepOk rng s := by
      intro s hs
      by_cases hrc : 0 < rc
      · simp only [recordSleep, hrc, if_true, List.mem_append, List.mem_singleton] at hs
        rcases hs with hs | hs
        · exact hsl s hs
        · subst hs
          exact ⟨hrc, (by omega : 1 ≤ si), rfl⟩
      · simp only [recordSleep, hrc, if_false] at hs
        exact hsl s hs
    rw [retryLoop] at h
    cases hge : get_server_response dm (net si) with
    | error e =>
      simp only [hge] at h
      by_cases he : e = Error.ExpiredToken
      · rw [if_pos he] at h
        cases authorize with
        | false =>
          simp only [Bool.false_eq_true, if_false] at h
          cases h
          exact hsl2
        | true =>
          simp only [if_true] at h
          cases href : refresh (si + 1) with
          | none => rw [href] at h; cases h
          | some p =>
            obtain ⟨res, si2⟩ := p
            rw [href] at h
            cases res with
            | ok u => exact ih 0 si2 _ _ r (Nat.zero_le _) hsl2 h
            | error e2 =>
              cases h
              exact hsl2
      · rw [if_neg he] at h
        by_cases hceil : MAXIMUM_RETRY ≤ rc + 1
        · rw [if_pos hceil] at h
          cases h
          exact hsl2
        · rw [if_neg hceil] at h
          exact ih (rc + 1) (si + 1) _ _ r (by omega) hsl2 h
    | ok p =>
      obtain ⟨status, body⟩ := p
      simp only [hge] at h
      by_cases hsc : statusClassIsServerError status = true
      · rw [if_pos hsc] at h
        by_cases hceil : MAXIMUM_RETRY ≤ rc + 1
        · rw [if_pos hceil] at h
          cases h
          exact hsl2
        · rw [if_neg hceil] at h
          exact ih (rc + 1) (si + 1) _ _ r (by omega) hsl2 h
      · rw [if_neg hsc] at h
        cases h
        exact hsl2

/-- C9: for every retry attempt k of a logical operation, the backoff
sleep before that attempt is drawn from the interval from 0 (the floor,
inclusive) up to but excluding the ceiling backoffCap k =
1000 * 2 ^ min (k - 1) 8 milliseconds, as the RNG draw for that send
reduced modulo the ceiling; the ceiling doubles each attempt and stops
doubling after 8 doublings; and no sleep ever precedes the first send of
an operation (send index 0), so the first attempt sleeps not at all. -/
theorem c9_backoff_schedule (net : Nat → Transport) (rng : Nat → Nat)
    (dm : Body → Option String) (o2 : Body → Except Error Unit) (authorize : Bool)
    (fuel : Nat) (r : OrchResult)
    (h : get_server_response_with_retry net rng dm o2 authorize fuel = some r) :
    (∀ k i d, (k, i, d) ∈ r.sleeps →
        1 ≤ k ∧ 1 ≤ i ∧ d = rng i % backoffCap k ∧ d < backoffCap k) ∧
      backoffCap 1 = 1000 ∧
      (∀ k, 1 ≤ k → k ≤ 8 → backoffCap (k + 1) = 2 * backoffCap k) ∧
      (∀ k, 9 ≤ k → backoffCap k = backoffCap 9) := by
  refine ⟨?_, by decide, ?_, ?_⟩
  · intro k i d hmem
    have hok := retryLoop_sleeps_ok net rng dm
      (refresh_authorization net rng dm o2 fuel) authorize fuel 0 0 [] 0 r
      (Nat.le_refl 0) (by intro s hs; cases hs) h (k, i, d) hmem
    obtain ⟨hk, hi, hd⟩ := hok
    have hd2 : d = rng i % backoffCap k := hd
    exact ⟨hk, hi, hd2, hd2 ▸ Nat.mod_lt _ (backoffCap_pos k)⟩
  · intro k h1 h8
    unfold backoffCap
    have e1 : min (k + 1 - 1) 8 = k := by omega
    have e2 : min (k - 1) 8 = k - 1 := by omega
    have e3 : (2 : Nat) ^ k = 2 ^ (k - 1) * 2 := by
      conv_lhs => rw [show k = (k - 1) + 1 by omega]
      rw [pow_succ]
    rw [e1, e2, e3]
    ring
  · intro k h9
    unfold backoffCap
    have e1 : min (k - 1) 8 = 8 := by omega
    rw [e1]
    norm_num

/-- Witness for C9 at a concrete run with one transport failure and one
recorded backoff sleep. -/
theorem c9_backoff_schedule_witness :
    get_server_response_with_retry netOnceW rngW dmNoneW o2okW true 2 =
        some ⟨.ok (200, []), 2, [(1, 1, 457)], 0⟩ ∧
      ((∀ k i d, (k, i, d) ∈ (OrchResult.mk (.ok (200, [])) 2 [(1, 1, 457)] 0).sleeps →
          1 ≤ k ∧ 1 ≤ i ∧ d = rngW i % backoffCap k ∧ d < backoffCap k) ∧
        backoffCap 1 = 1000 ∧
        (∀ k, 1 ≤ k → k ≤ 8 → backoffCap (k + 1) = 2 * backoffCap k) ∧
        (∀ k, 9 ≤ k → backoffCap k = backoffCap 9)) :=
  ⟨by decide, c9_backoff_schedule netOnceW rngW dmNoneW o2okW true 2 _ (by decide)⟩

/-- A run of insertAll is just appending the rows in order. -/
theorem insertAll_eq_append (c : Cache) (rows : List CacheRow) :
    insertAll c rows = c ++ rows := by
  induction rows generalizing c with
  | nil => simp [insertAll]
  | cons r rs ih =>
    simp only [insertAll, List.foldl_cons] at *
    rw [show insert_into_node_cache c r.1 r.2.1 r.2.2 = c ++ [r] by
      simp [insert_into_node_cache]]
    rw [ih (c ++ [r])]
    simp

/-- C4 counterexample: the claim that every inserted (parent, name, child)
triple is returned by a subsequent lookup fails when a row for the same
(parent, name) key was inserted earlier with a different child: the
lookup (query_row over the insertion-ordered table) returns the earliest
matching row.  Here the triple (p, n, b) has just been inserted, with no
later inserts at all, yet the lookup returns Some a, not Some b. -/
theorem c4_insert_then_fetch_counterexample :
    fetch_from_node_cache
        (insert_into_node_cache (insert_into_node_cache [] "p" "n" "a") "p" "n" "b")
        "p" "n" = some "a" ∧
      fetch_from_node_cache
        (insert_into_node_cache (insert_into_node_cache [] "p" "n" "a") "p" "n" "b")
        "p" "n" ≠ some "b" := by
  decide

/-- C4 amended: for every (parent, name, child) triple inserted via
insert_into_node_cache at a moment when the cache holds no row for
(parent, name), a subsequent lookup of (parent, name) returns
Some(child), even after any number of later inserts (in particular
inserts for keys other than (parent, name)). -/
theorem c4_insert_then_fetch_amended (c : Cache) (p n id : String) (later : List CacheRow)
    (h : fetch_from_node_cache c p n = none) :
    fetch_from_node_cache (insertAll (insert_into_node_cache c p n id) later) p n =
      some id := by
  rw [insertAll_eq_append]
  unfold fetch_from_node_cache at *
  have hfind : c.find? (fun row => row.1 == p && row.2.1 == n) = none := by
    cases hf : c.find? (fun row => row.1 == p && row.2.1 == n) with
    | none => rfl
    | some row => rw [hf] at h; simp at h
  rw [insert_into_node_cache, List.append_assoc, List.find?_append, hfind]
  simp

/-- Witness for the amended C4 at a concrete fresh key and a later
unrelated insert. -/
theorem c4_insert_then_fetch_amended_witness :
    fetch_from_node_cache [] "p" "n" = none ∧
      fetch_from_node_cache (insertAll (insert_into_node_cache [] "p" "n" "c1")
        [("x", "y", "z")]) "p" "n" = some "c1" :=
  ⟨rfl, c4_insert_then_fetch_amended [] "p" "n" "c1" [("x", "y", "z")] rfl⟩

/-- C3: when the create-folder call in mkdir returns a 409 Conflict
status, mkdir extracts the existing node identifier from the conflict
response body, inserts the (parent, name, id) mapping into the node
cache, and returns that identifier as a success, not an error. -/
theorem c3_mkdir_conflict_absorbed
    (net : Nat → Transport) (rng : Nat → Nat) (dm : Body → Option String)
    (o2 : Body → Except Error Unit)
    (decodeNodeId decodeConflictNodeId : Body → Except Error String) (fuel : Nat)
    (cache : Cache) (rootId : String) (parent : Option String) (name : String)
    (r : OrchResult) (body : Body) (nid : String)
    (hmiss : fetch_from_node_cache cache (parent.getD rootId) name = none)
    (horch : get_server_response_with_retry net rng dm o2 true fuel = some r)
    (hres : r.result = .ok (409, body))
    (hdec : decodeConflictNodeId body = .ok nid) :
    mkdir net rng dm o2 decodeNodeId decodeConflictNodeId fuel cache rootId parent name =
      some ⟨.ok nid, insert_into_node_cache cache (parent.getD rootId) name nid⟩ := by
  unfold mkdir
  simp only [hmiss, horch, hres, hdec]
  norm_num

/-- Witness for C3: a concrete conflict response absorbed into a success. -/
theorem c3_mkdir_conflict_absorbed_witness :
    fetch_from_node_cache [] "root" "d" = none ∧
      mkdir net409W rngW dmNoneW o2okW decodeNodeW decodeConflictW 1 [] "root" none "d" =
        some ⟨.ok "existing-id", insert_into_node_cache [] "root" "d" "existing-id"⟩ :=
  ⟨rfl, c3_mkdir_conflict_absorbed net409W rngW dmNoneW o2okW decodeNodeW decodeConflictW 1
    [] "root" none "d" ⟨.ok (409, [7]), 1, [], 0⟩ [7] "existing-id" rfl (by decide) rfl rfl⟩

/-- C8: when the server responds to an upload with a 409 Conflict status,
upload returns the NodeExists error to the caller instead of absorbing
the conflict the way mkdir does, and no mapping is inserted into the
node cache for that call (the cache is returned unchanged). -/
theorem c8_upload_conflict_node_exists
    (net : Nat → Transport) (rng : Nat → Nat) (dm : Body → Option String)
    (o2 : Body → Except Error Unit) (md5Hex : Body → String)
    (decodeUpload : Body → Except Error (String × String)) (fuel : Nat)
    (cache : Cache) (rootId : String) (parent : Option String) (name : String) (data : Body)
    (r : OrchResult) (body : Body)
    (horch : get_server_response_with_retry net rng dm o2 true fuel = some r)
    (hres : r.result = .ok (409, body)) :
    upload net rng dm o2 md5Hex decodeUpload fuel cache rootId parent name data =
      some (.done (.error .NodeExists) cache) := by
  unfold upload
  simp only [horch, hres]
  norm_num

/-- Witness for C8: a concrete conflict response surfaced as NodeExists. -/
theorem c8_upload_conflict_node_exists_witness :
    upload net409W rngW dmNoneW o2okW (fun _ => "d41d") (fun _ => .ok ("i", "d41d")) 1
        [] "root" none "f" [] = some (.done (.error .NodeExists) []) :=
  c8_upload_conflict_node_exists net409W rngW dmNoneW o2okW (fun _ => "d41d")
    (fun _ => .ok ("i", "d41d")) 1 [] "root" none "f" []
    ⟨.ok (409, [7]), 1, [], 0⟩ [7] (by decide) rfl

/-- C5: for every parent node and name not present in the cache,
find_child issues one remote child-lookup; if the lookup decodes to zero
matches it returns Ok(None) with nothing inserted into the cache, and if
it decodes to one or more matches it takes the first match, inserts
exactly that (parent, name, id) mapping into the cache, and returns that
identifier. -/
theorem c5_find_child_miss
    (net : Nat → Transport) (rng : Nat → Nat) (dm : Body → Option String)
    (o2 : Body → Except Error Unit) (decodeNodes : Body → Except Error (List String))
    (fuel : Nat) (cache : Cache) (parent name : String)
    (r : OrchResult) (body : Body) (ids : List String)
    (hmiss : fetch_from_node_cache cache parent name = none)
    (horch : get_server_response_with_retry net rng dm o2 true fuel = some r)
    (hres : r.result = .ok (200, body))
    (hdec : decodeNodes body = .ok ids) :
    (ids = [] → find_child net rng dm o2 decodeNodes fuel cache parent name =
        some ⟨.ok none, cache, 1, r.refreshes, 1⟩) ∧
      (∀ x xs, ids = x :: xs →
        find_child net rng dm o2 decodeNodes fuel cache parent name =
          some ⟨.ok (some x), insert_into_node_cache cache parent name x, 1,
            r.refreshes, 1⟩) := by
  constructor
  · intro hnil
    subst hnil
    unfold find_child
    simp only [hmiss, horch, hres, hdec]
    norm_num
  · intro x xs hcons
    subst hcons
    unfold find_child
    simp only [hmiss, horch, hres, hdec]
    norm_num

/-- Witness for C5 at a concrete miss with one match. -/
theorem c5_find_child_miss_witness :
    fetch_from_node_cache [] "root" "a" = none ∧
      ((["child-id"] = ([] : List String) →
        find_child net200W rngW dmNoneW o2okW decodeNodesOneW 1 [] "root" "a" =
          some ⟨.ok none, [], 1, 0, 1⟩) ∧
      (∀ x xs, ["child-id"] = x :: xs →
        find_child net200W rngW dmNoneW o2okW decodeNodesOneW 1 [] "root" "a" =
          some ⟨.ok (some x), insert_into_node_cache [] "root" "a" x, 1, 0, 1⟩)) :=
  ⟨rfl, c5_find_child_miss net200W rngW dmNoneW o2okW decodeNodesOneW 1 [] "root" "a"
    ⟨.ok (200, [3]), 1, [], 0⟩ [3] ["child-id"] rfl (by decide) rfl rfl⟩

/-- When every normal component of the path is already cached under the
nodes walked from the current node, the component walk resolves to some
node while consulting only the cache: the cache, the remote-lookup count
and the refresh count come out unchanged. -/
theorem find_path_loop_cached (net2 : Nat → Nat → Transport) (rng : Nat → Nat)
    (dm : Body → Option String) (o2 : Body → Except Error Unit)
    (dn : Body → Except Error (List String)) (fuel : Nat) (rootId : String) :
    ∀ (path : List PathComp) (cur : String) (c : Cache) (lk rf cf : Nat),
      walkCached c rootId cur path = true →
      ∃ nid cf2, find_path_loop net2 rng dm o2 dn fuel rootId path cur c lk rf cf =
        some ⟨.ok (some nid), c, lk, rf, cf2⟩ := by
  intro path
  induction path with
  | nil =>
    intro cur c lk rf cf _
    exact ⟨cur, cf, rfl⟩
  | cons comp rest ih =>
    intro cur c lk rf cf hw
    cases comp with
    | rootDir =>
      simp only [walkCached] at hw
      simp only [find_path_loop]
      exact ih rootId c lk rf cf hw
    | curDir =>
      simp only [walkCached] at hw
      simp only [find_path_loop]
      exact ih cur c lk rf cf hw
    | parentDir => simp [walkCached] at hw
    | prefixComp => simp [walkCached] at hw
    | normal oname =>
      cases oname with
      | none => simp [walkCached] at hw
      | some name =>
        simp only [walkCached] at hw
        cases hfetch : fetch_from_node_cache c cur name with
        | none => rw [hfetch] at hw; cases hw
        | some child =>
          rw [hfetch] at hw
          simp only [find_path_loop, find_child, hfetch, Nat.add_zero]
          exact ih child c lk rf (cf + 1) hw

/-- C6: for every path whose components are all already present in the
node cache under the nodes walked from the start node, find_path
resolves the whole path (to some node identifier) with zero remote
lookup calls, and leaves the cache unchanged and the credential state
untouched (zero refresh cycles, the only writes to credentials). -/
theorem c6_cached_path_no_network (net2 : Nat → Nat → Transport) (rng : Nat → Nat)
    (dm : Body → Option String) (o2 : Body → Except Error Unit)
    (dn : Body → Except Error (List String)) (fuel : Nat) (c : Cache) (rootId : String)
    (parent : Option String) (path : List PathComp)
    (h : walkCached c rootId (parent.getD rootId) path = true) :
    ∃ r : FindPathResult, find_path net2 rng dm o2 dn fuel c rootId parent path = some r ∧
      r.lookups = 0 ∧ r.refreshes = 0 ∧ r.cache = c ∧
      ∃ nid, r.result = .ok (some nid) := by
  obtain ⟨nid, cf2, hr⟩ := find_path_loop_cached net2 rng dm o2 dn fuel rootId path
    (parent.getD rootId) c 0 0 0 h
  exact ⟨_, hr, rfl, rfl, rfl, nid, rfl⟩

/-- Witness for C6 at a concrete fully-cached two-component path. -/
theorem c6_cached_path_no_network_witness :
    walkCached cacheABW "root" ((none : Option String).getD "root")
        [PathComp.normal (some "a"), PathComp.normal (some "b")] = true ∧
      ∃ r : FindPathResult, find_path net2W rngW dmNoneW o2okW decodeNodesOneW 1 cacheABW
          "root" none [PathComp.normal (some "a"), PathComp.normal (some "b")] = some r ∧
        r.lookups = 0 ∧ r.refreshes = 0 ∧ r.cache = cacheABW ∧
        ∃ nid, r.result = .ok (some nid) :=
  ⟨by decide, c6_cached_path_no_network net2W rngW dmNoneW o2okW decodeNodesOneW 1 cacheABW
    "root" none [PathComp.normal (some "a"), PathComp.normal (some "b")] (by decide)⟩

/-- C10: for every starting node, find_path applied to a path containing
no normal-name and no root components (the empty path, or a path of
current-directory markers only) returns the starting node itself (the
configured root when the start argument is None) as a success,
performing no cache fetches and no remote calls and leaving the cache
unchanged. -/
theorem c10_trivial_path_returns_start (net2 : Nat → Nat → Transport) (rng : Nat → Nat)
    (dm : Body → Option String) (o2 : Body → Except Error Unit)
    (dn : Body → Except Error (List String)) (fuel : Nat) (c : Cache) (rootId : String)
    (parent : Option String) (path : List PathComp)
    (h : ∀ p ∈ path, p = PathComp.curDir) :
    find_path net2 rng dm o2 dn fuel c rootId parent path =
      some ⟨.ok (some (parent.getD rootId)), c, 0, 0, 0⟩ := by
  unfold find_path
  revert h
  induction path with
  | nil =>
    intro _
    rfl
  | cons comp rest ih =>
    intro h
    have hc : comp = PathComp.curDir := h comp (List.mem_cons_self _ _)
    subst hc
    simp only [find_path_loop]
    exact ih (fun q hq => h q (List.mem_cons_of_mem _ hq))

/-- Witness for C10 at a concrete all-markers path and explicit start. -/
theorem c10_trivial_path_returns_start_witness :
    (∀ p ∈ [PathComp.curDir, PathComp.curDir], p = PathComp.curDir) ∧
      find_path net2W rngW dmNoneW o2okW decodeNodesOneW 1 cacheABW "root" (some "start")
          [PathComp.curDir, PathComp.curDir] =
        some ⟨.ok (some ((some "start").getD "root")), cacheABW, 0, 0, 0⟩ :=
  ⟨by decide, c10_trivial_path_returns_start net2W rngW dmNoneW o2okW decodeNodesOneW 1
    cacheABW "root" (some "start") [PathComp.curDir, PathComp.curDir] (by decide)⟩

end Acd
